import Mathlib

/-!
Verification of the Market-State Routing & Safety-Gating subsystem of the
BuriBuri_Trading repository, as a shallow embedding in Lean 4.

Embedded components (leaf-first, as in the repository):
  * `risk_guardrails.py`  — `apply_risk_guardrails`, the final safety filter;
  * `market_mode.py`      — `get_market_status`, the market status resolver;
  * `historical_data_service.py` — cache-backed historical data service;
  * `data_router.py`      — the market-aware `DataRouter` state machine.

Embedding conventions:
  * Python dicts with a documented, fixed key set are embedded as Lean
    structures; a key read with `dict.get(k, default)` becomes an `Option`
    field read with `Option.getD`.
  * Python floats are embedded as `ℚ` (exact rationals); `round(x, 2)` is
    embedded as rounding to two decimal places over `ℚ`.
  * Date strings ("YYYY-MM-DD" prefixes of ISO-8601 timestamps) are embedded
    as integer day numbers: for well-formed dates the code's lexicographic
    string comparison agrees with the integer order, and
    `timedelta(days = n)` becomes integer subtraction.
  * Raising Python code is embedded with explicit `Except` / result values;
    calls into external collaborators (the Alpaca live adapter, the Alpaca
    clock, the filesystem) are embedded as explicit oracle parameters whose
    outcomes (success value or raised exception) are part of the input.
-/

namespace BuriBuri

/-! ## risk_guardrails.py -/

/-- A proposed action dict.  The code reads the keys `target`, `action`,
`type`, `sector` with `dict.get` and a default, so each is an `Option`;
other metadata keys are carried along unread (the code only copies the
dict), so they are not modelled. -/
structure Action where
  target : Option String
  action : Option String
  type : Option String
  sector : Option String
deriving DecidableEq, Repr

/-- The `concentration` sub-dict of a risk context. -/
structure Concentration where
  is_concentrated : Option Bool
  dominant_sector : Option String
  severity : Option String
deriving DecidableEq, Repr

/-- A risk-context dict with the documented keys, each optional because the
code reads them with `dict.get` and a default. -/
structure RiskContext where
  concentration : Option Concentration
  cash_available : Option ℚ
  minimum_reserve : Option ℚ
  volatility_state : Option String
deriving DecidableEq, Repr

/-- The `proposed_actions` argument of `apply_risk_guardrails` as received
from Python callers: either an actual list of action dicts, or any
non-list value (the code tests `isinstance(proposed_actions, list)`). -/
inductive ActionsArg where
  | list (l : List Action)
  | notList
deriving DecidableEq, Repr

/-- The `risk_context` argument as received from Python callers: a
non-empty dict (`dict c`), the empty dict (falsy in Python, so the code
treats it like a missing context), or `None` / any non-dict value. -/
inductive CtxArg where
  | dict (c : RiskContext)
  | emptyDict
  | notDict
deriving DecidableEq, Repr

/-- The extracted risk signals, after the `risk_context.get(...)` reads
with their safe defaults (lines 91–99 of `risk_guardrails.py`). -/
structure Signals where
  is_concentrated : Bool
  dominant_sector : String
  severity : String
  cash_available : ℚ
  minimum_reserve : ℚ
  volatility_state : String
deriving DecidableEq, Repr

/-- Signal extraction from a (non-empty) risk-context dict, mirroring
`concentration = risk_context.get("concentration", {})` and the
subsequent `.get` reads with defaults. -/
def extractSignals (ctx : RiskContext) : Signals :=
  let conc := ctx.concentration.getD ⟨none, none, none⟩
  { is_concentrated := conc.is_concentrated.getD false
    dominant_sector := conc.dominant_sector.getD "UNKNOWN"
    severity := conc.severity.getD "NONE"
    cash_available := ctx.cash_available.getD 0
    minimum_reserve := ctx.minimum_reserve.getD 0
    volatility_state := ctx.volatility_state.getD "UNKNOWN" }

/-- Rule 1 action set: actions that increase exposure. -/
def increasing_actions : List String :=
  ["ALLOCATE", "ALLOCATE_HIGH", "ALLOCATE_AGGRESSIVE",
   "SCALE_UP", "DOUBLE_DOWN", "ADD_POSITION"]

/-- Rule 1 (APPROACHING branch) action set: the stricter aggressive subset. -/
def approaching_aggressive_actions : List String :=
  ["ALLOCATE_HIGH", "ALLOCATE_AGGRESSIVE", "SCALE_UP", "DOUBLE_DOWN"]

/-- Rule 2 action set: actions requiring capital. -/
def capital_requiring_actions : List String :=
  ["ALLOCATE", "ALLOCATE_HIGH", "ALLOCATE_AGGRESSIVE",
   "ALLOCATE_CAPPED", "ALLOCATE_CAUTIOUS",
   "SCALE_UP", "ADD_POSITION", "DOUBLE_DOWN"]

/-- Rule 3 action set: aggressive actions blocked during expanding
volatility. -/
def volatility_aggressive_actions : List String :=
  ["ALLOCATE_AGGRESSIVE", "SCALE_UP", "DOUBLE_DOWN", "FREE_CAPITAL"]

/-- The per-action rule chain of `apply_risk_guardrails` (lines 107–174):
`block_reason` starts as `None` and each matching rule assignment
overwrites it, in the fixed source order Rule 1, Rule 1 (APPROACHING),
Rule 2, Rule 3. -/
def blockReason (sig : Signals) (a : Action) : Option String :=
  let action_type := a.action.getD "UNKNOWN"
  let sector := a.sector.getD "UNKNOWN"
  let r : Option String := none
  let r := if sig.is_concentrated = true ∧ sector = sig.dominant_sector ∧
              action_type ∈ increasing_actions
           then some "Sector concentration breach" else r
  let r := if sig.severity = "APPROACHING" ∧ sector = sig.dominant_sector ∧
              action_type ∈ approaching_aggressive_actions
           then some "Sector concentration breach" else r
  let r := if sig.cash_available < sig.minimum_reserve ∧
              action_type ∈ capital_requiring_actions
           then some "Insufficient cash reserve" else r
  let r := if sig.volatility_state = "EXPANDING" ∧
              action_type ∈ volatility_aggressive_actions
           then some "Aggressive action blocked during expanding volatility" else r
  r

/-- The result of `apply_risk_guardrails`: a blocked action is the input
action dict copied with a `reason` value added, modelled as a pair. -/
structure FilterResult where
  allowed_actions : List Action
  blocked_actions : List (Action × String)
deriving DecidableEq, Repr

/-- `apply_risk_guardrails(proposed_actions, risk_context)`.  The two
defensive early returns (lines 76–88) come first; then each action is
appended, in input order, to `allowed` when its rule chain produced no
reason and to `blocked` (with the reason) otherwise. -/
def apply_risk_guardrails (proposed_actions : ActionsArg) (risk_context : CtxArg) :
    FilterResult :=
  match proposed_actions with
  | .notList => ⟨[], []⟩
  | .list [] => ⟨[], []⟩
  | .list acts =>
    match risk_context with
    | .notDict =>
        ⟨[], acts.map (fun a => (a, "Safety check failed: missing risk context"))⟩
    | .emptyDict =>
        ⟨[], acts.map (fun a => (a, "Safety check failed: missing risk context"))⟩
    | .dict ctx =>
        let sig := extractSignals ctx
        { allowed_actions := acts.filter (fun a => (blockReason sig a).isNone)
          blocked_actions :=
            acts.filterMap (fun a => (blockReason sig a).map (fun r => (a, r))) }

/-- The reason the FIRST matching rule (in source order) would produce —
the reading claimed by the spec sentence "first matching rule wins".
Written to be compared against `blockReason`. -/
def firstRuleReason (sig : Signals) (a : Action) : Option String :=
  let action_type := a.action.getD "UNKNOWN"
  let sector := a.sector.getD "UNKNOWN"
  let r1 : Option String :=
    if sig.is_concentrated = true ∧ sector = sig.dominant_sector ∧
       action_type ∈ increasing_actions
    then some "Sector concentration breach" else none
  let r1b : Option String :=
    if sig.severity = "APPROACHING" ∧ sector = sig.dominant_sector ∧
       action_type ∈ approaching_aggressive_actions
    then some "Sector concentration breach" else none
  let r2 : Option String :=
    if sig.cash_available < sig.minimum_reserve ∧
       action_type ∈ capital_requiring_actions
    then some "Insufficient cash reserve" else none
  let r3 : Option String :=
    if sig.volatility_state = "EXPANDING" ∧
       action_type ∈ volatility_aggressive_actions
    then some "Aggressive action blocked during expanding volatility" else none
  (r1.orElse (fun _ => r1b)).orElse (fun _ => r2.orElse (fun _ => r3))

/-- The reason the LAST matching rule (in source order) produces. -/
def lastRuleReason (sig : Signals) (a : Action) : Option String :=
  let action_type := a.action.getD "UNKNOWN"
  let sector := a.sector.getD "UNKNOWN"
  let r1 : Option String :=
    if sig.is_concentrated = true ∧ sector = sig.dominant_sector ∧
       action_type ∈ increasing_actions
    then some "Sector concentration breach" else none
  let r1b : Option String :=
    if sig.severity = "APPROACHING" ∧ sector = sig.dominant_sector ∧
       action_type ∈ approaching_aggressive_actions
    then some "Sector concentration breach" else none
  let r2 : Option String :=
    if sig.cash_available < sig.minimum_reserve ∧
       action_type ∈ capital_requiring_actions
    then some "Insufficient cash reserve" else none
  let r3 : Option String :=
    if sig.volatility_state = "EXPANDING" ∧
       action_type ∈ volatility_aggressive_actions
    then some "Aggressive action blocked during expanding volatility" else none
  (r3.orElse (fun _ => r2)).orElse (fun _ => r1b.orElse (fun _ => r1))

/-! ## market_mode.py -/

/-- The market-status dict produced by `get_market_status`: status label,
human-readable reason, and the ISO timestamp of the check (carried opaquely
as a string). -/
structure MarketStatus where
  status : String
  reason : String
  timestamp : String
deriving DecidableEq, Repr

/-- Exchange-local wall-clock time, as obtained from
`now_utc.astimezone(eastern_tz)` (or the fixed-offset fallback):
`weekday` is Python `datetime.weekday()` (0 = Monday … 6 = Sunday) and
`time_of_day_us` is the time of day in microseconds since local midnight,
the resolution of Python `datetime.time` comparisons. -/
structure ExchangeLocalTime where
  weekday : Nat
  time_of_day_us : Nat
deriving DecidableEq, Repr

/-- `datetime.time(9, 30)` in microseconds since midnight. -/
def market_open_us : Nat := (9 * 60 + 30) * 60 * 1000000

/-- `datetime.time(16, 0)` in microseconds since midnight. -/
def market_close_us : Nat := 16 * 60 * 60 * 1000000

/-- The local fallback calculation of `get_market_status` (lines 66–105 of
`market_mode.py`): weekend check, then trading-hours check against the
09:30 / 16:00 thresholds.  `ts` is the UTC timestamp string recorded in
the result. -/
def local_market_status (now_et : ExchangeLocalTime) (ts : String) : MarketStatus :=
  if now_et.weekday ≥ 5 then
    ⟨"CLOSED", "Weekend", ts⟩
  else if now_et.time_of_day_us < market_open_us then
    ⟨"CLOSED", "Pre-market", ts⟩
  else if now_et.time_of_day_us > market_close_us then
    ⟨"CLOSED", "After hours", ts⟩
  else
    ⟨"OPEN", "Market Open (Local Time)", ts⟩

/-- The outcome of the authoritative Alpaca clock call, as an oracle: the
call either returns the clock's `is_open` boolean or raises. -/
inductive ClockCall where
  | ok (is_open : Bool)
  | raised
deriving DecidableEq, Repr

/-- `get_market_status` (lines 31–105 of `market_mode.py`), with the
environment made explicit: `creds` says whether both Alpaca keys are set,
`clock` is the outcome of the Alpaca clock query (consulted only when
credentials exist; any exception falls through to the local calculation),
`now_et` the exchange-local time and `ts` the UTC timestamp string.  The
process-lifetime memoisation of the result is not modelled: it returns
whatever the first computation returned, which is what is modelled here. -/
def get_market_status (creds : Bool) (clock : ClockCall)
    (now_et : ExchangeLocalTime) (ts : String) : MarketStatus :=
  if creds then
    match clock with
    | .ok true => ⟨"OPEN", "Market is Open", ts⟩
    | .ok false => ⟨"CLOSED", "Market is Closed (Alpaca Clock)", ts⟩
    | .raised => local_market_status now_et ts
  else
    local_market_status now_et ts

/-! ## historical_data_service.py -/

/-- One OHLC candle from a cache file.  The `timestamp` is the candle's
date (the `[:10]` prefix of its ISO-8601 timestamp) as an integer day
number; prices are exact rationals. -/
structure Candle where
  timestamp : Int
  open_price : ℚ
  high : ℚ
  low : ℚ
  close : ℚ
deriving DecidableEq, Repr

/-- The per-symbol cache metadata built by `_scan_cache`: the start/end
dates parsed from the `SYMBOL_STARTDATE_ENDDATE.json` filename (as day
numbers), together with the outcome of reading that symbol's file — the
filesystem oracle for the read-only cache directory.  `_scan_cache`
registers a symbol whose filename parses even when its file fails to
read, so a registered symbol may still carry a read failure:
`read_error = some e` models the `open`/`json.load` except-branch at load
time with message `e`, and otherwise `candles` is the parsed candle
array. -/
structure CacheEntry where
  start_date : Int
  end_date : Int
  candles : List Candle
  read_error : Option String
deriving DecidableEq, Repr

/-- The historical data service state after `_scan_cache`: a finite map
from symbol to cache entry (`_available_symbols` is exactly the key set,
since `_scan_cache` registers both together). -/
structure HistoricalDataService where
  cache : List (String × CacheEntry)
deriving DecidableEq, Repr

/-- `get_available_symbols`. -/
def available_symbols (svc : HistoricalDataService) : List String :=
  svc.cache.map (fun e => e.1)

/-- `TIME_RANGES` month counts: the fixed `{1M, 4M, 6M, 1Y}` table;
`none` for a key not in the table. -/
def time_range_months : String → Option Nat
  | "1M" => some 1
  | "4M" => some 4
  | "6M" => some 6
  | "1Y" => some 12
  | _ => none

/-- The result dict of `load_historical_data`. -/
structure LoadResult where
  status : String
  error : Option String
  candles : List Candle
deriving DecidableEq, Repr

/-- The time-range filter of `load_historical_data` (lines 148–170):
for a recognised key, keep the candles whose date is at or after
`lastCandleDate − months × 30 days` (the code's lexicographic comparison
of "YYYY-MM-DD" strings is date order); for an unrecognised key, or an
empty candle array, keep everything. -/
def filter_candles_by_range (time_range : String) (all_candles : List Candle) :
    List Candle :=
  match time_range_months time_range with
  | some months =>
    match all_candles.getLast? with
    | some last_candle =>
        all_candles.filter
          (fun c => last_candle.timestamp - (months : Int) * 30 ≤ c.timestamp)
    | none => all_candles
  | none => all_candles

/-- `load_historical_data(symbol, time_range)` (lines 107–193): NotFound
error result for an uncached symbol; a read error result when the
symbol's file fails to read or parse (the `except` branch at lines
137–146); otherwise a success result holding the time-range-filtered
candle array. -/
def load_historical_data (svc : HistoricalDataService) (symbol : String)
    (time_range : String) : LoadResult :=
  match svc.cache.lookup symbol with
  | none =>
      { status := "error"
        error := some ("Symbol '" ++ symbol ++ "' not found in historical cache")
        candles := [] }
  | some entry =>
      match entry.read_error with
      | some e =>
          { status := "error"
            error := some ("Failed to load data: " ++ e)
            candles := [] }
      | none =>
          { status := "success"
            error := none
            candles := filter_candles_by_range time_range entry.candles }

/-- `round(x, 2)` over exact rationals: round to the nearest multiple of
1/100 (the ties-to-even of Python's float rounding is immaterial to the
claims; the round-to-nearest shape is what is kept). -/
def round2 (q : ℚ) : ℚ := ((Int.floor (q * 100 + 1 / 2) : ℤ) : ℚ) / 100

/-- The true range of a candle given the previous candle's close:
`max(high − low, |high − prevClose|, |low − prevClose|)`. -/
def true_range (prev c : Candle) : ℚ :=
  max (c.high - c.low) (max |c.high - prev.close| |c.low - prev.close|)

/-- The list of true ranges of consecutive candle pairs, in order
(`for i in range(1, len(candles))` of `_calculate_atr`). -/
def true_ranges : List Candle → List ℚ
  | a :: b :: rest => true_range a b :: true_ranges (b :: rest)
  | _ => []

/-- `_calculate_atr(candles, period = 14)` (lines 301–324): default 2.0
for fewer than 2 candles, else the mean of the last `period` true ranges
(all of them when fewer; `drop (length − period)` is exactly Python's
`l[-period:]` under truncated subtraction). -/
def calculate_atr (candles : List Candle) (period : Nat := 14) : ℚ :=
  if candles.length < 2 then 2
  else
    let trs := true_ranges candles
    if trs = [] then 2
    else
      let recent := trs.drop (trs.length - period)
      recent.sum / (recent.length : ℚ)

/-- The simulated portfolio dict of `generate_portfolio_from_historical`. -/
structure Portfolio where
  total_capital : ℚ
  cash : ℚ
  risk_tolerance : String
deriving DecidableEq, Repr

/-- `generate_portfolio_from_historical` (lines 199–243). -/
def generate_portfolio_from_historical (_symbol : String) (candles : List Candle) :
    Portfolio :=
  match candles with
  | [] => ⟨100000, 100000, "moderate"⟩
  | _ => ⟨100000, 25000, "moderate"⟩

/-- A synthesized position dict. -/
structure Position where
  symbol : String
  sector : String
  entry_price : ℚ
  current_price : ℚ
  atr : ℚ
  days_held : Nat
  capital_allocated : ℚ
deriving DecidableEq, Repr

/-- The fixed symbol → sector table of `generate_positions_from_historical`. -/
def sector_of_symbol : String → String
  | "SPY" => "INDEX"
  | "QQQ" => "TECH"
  | "IWM" => "SMALL_CAP"
  | _ => "EQUITY"

/-- `generate_positions_from_historical(symbol, candles)` (lines 245–299):
empty list for no candles; otherwise exactly one position whose current
price is the last close, whose entry price is the close of
`candles[-(lookback+1)]` with `lookback = min(20, len−1)` (the first candle
when `lookback = 0`), and whose ATR comes from `_calculate_atr` over the
last 20 candles (`candles[-20:]`), all rounded to 2 decimals;
`capital_allocated` is the fixed 75000.0. -/
def generate_positions_from_historical (symbol : String) (candles : List Candle) :
    List Position :=
  match candles.getLast? with
  | none => []
  | some last_candle =>
    let current_price := last_candle.close
    let recent_candles :=
      if candles.length ≥ 20 then candles.drop (candles.length - 20) else candles
    let atr := calculate_atr recent_candles
    let lookback := min 20 (candles.length - 1)
    let entry_candle :=
      if lookback > 0 then candles.getD (candles.length - (lookback + 1)) last_candle
      else candles.headD last_candle
    let entry_price := entry_candle.close
    [{ symbol := symbol
       sector := sector_of_symbol symbol
       entry_price := round2 entry_price
       current_price := round2 current_price
       atr := round2 atr
       days_held := lookback
       capital_allocated := 75000 }]

/-! ## data_router.py -/

/-- The outcome of a call into the external live adapter: the returned
value, or a raised exception with its message. -/
inductive FetchResult (α : Type) where
  | ok (a : α)
  | raised (msg : String)

/-- The external Alpaca live adapter, as an oracle: each method the router
calls is a field giving that call's outcome. -/
structure LiveAdapter where
  get_recent_candles : String → Nat → String → FetchResult (List Candle)
  get_headlines : Unit → FetchResult (List String)
  get_portfolio : Unit → FetchResult Portfolio
  get_positions : Unit → FetchResult (List Position)

/-- The outcome of `AlpacaAdapter()` construction in
`_initialize_live_adapter`: an adapter, or a raised exception. -/
inductive AdapterCtor where
  | ok (a : LiveAdapter)
  | raised (msg : String)

/-- The market-status dict the router reads (`market_status.get_market_status`
is the router's status provider; the router reads its `is_open` boolean and
`label` with `dict.get` and a default, so both are `Option` fields —
`none` models an absent key). -/
structure RouterMarketStatus where
  is_open : Option Bool
  label : Option String
deriving DecidableEq, Repr

/-- The mutable state of a `DataRouter`: the cached market status, the data
mode and data-source labels, the selection state, and the live adapter
handle.  The lazy initialize-on-first-use of the Python methods is
modelled by considering states produced by `refresh_market_status`. -/
structure RouterState where
  market_status : Option RouterMarketStatus
  data_mode : Option String
  data_source : Option String
  selected_symbol : String
  selected_time_range : String
  live_adapter : Option LiveAdapter

/-- The state set up by `DataRouter.__init__`. -/
def initial_router_state : RouterState :=
  { market_status := none
    data_mode := none
    data_source := none
    selected_symbol := "SPY"
    selected_time_range := "6M"
    live_adapter := none }

/-- The `is_open` read every router method performs:
`self._market_status.get("is_open", False)`. -/
def router_is_open (s : RouterState) : Bool :=
  match s.market_status with
  | some st => st.is_open.getD false
  | none => false

/-- `_initialize_live_adapter` (lines 105–117): on construction failure the
adapter is cleared and the data source is annotated "(Connection Error)",
while `data_mode` is left untouched (mode stays LIVE, no fallback). -/
def initialize_live_adapter (ctor : AdapterCtor) (s : RouterState) : RouterState :=
  match ctor with
  | .ok a => { s with live_adapter := some a }
  | .raised _ =>
      { s with live_adapter := none
               data_source := some "Alpaca + Polygon (Connection Error)" }

/-- `_refresh_market_status` (lines 82–103), with the status provider's
result and the adapter-construction outcome as explicit inputs: an open
market sets LIVE mode and constructs the adapter; anything else sets
HISTORICAL mode and clears the adapter. -/
def refresh_market_status (status : RouterMarketStatus) (ctor : AdapterCtor)
    (s : RouterState) : RouterState :=
  let s := { s with market_status := some status }
  if status.is_open.getD false then
    initialize_live_adapter ctor
      { s with data_mode := some "LIVE", data_source := some "Alpaca + Polygon" }
  else
    { s with data_mode := some "HISTORICAL"
             data_source := some "Alpaca Historical Cache"
             live_adapter := none }

/-- The market-data payload dict; keys a branch does not set are `none`. -/
structure MarketDataPayload where
  status : String
  error : Option String
  data_mode : Option String
  data_source : Option String
  symbol : Option String
  candles : List Candle
  headlines : Option (List String)
  time_range : Option String

/-- `_get_live_market_data` (lines 271–316): an error payload when the
adapter is absent, a success payload from the adapter's candles and
headlines, and an error payload when either adapter call raises.  Every
payload carries `data_mode = LIVE` and never any historical candles. -/
def get_live_market_data (s : RouterState) : MarketDataPayload :=
  match s.live_adapter with
  | none =>
      { status := "error", error := some "Live adapter not available"
        data_mode := some "LIVE", data_source := s.data_source
        symbol := none, candles := [], headlines := none, time_range := none }
  | some a =>
      match a.get_recent_candles s.selected_symbol 50 "1Min" with
      | .raised e =>
          { status := "error", error := some e
            data_mode := some "LIVE", data_source := s.data_source
            symbol := none, candles := [], headlines := none, time_range := none }
      | .ok cs =>
          match a.get_headlines () with
          | .raised e =>
              { status := "error", error := some e
                data_mode := some "LIVE", data_source := s.data_source
                symbol := none, candles := [], headlines := none, time_range := none }
          | .ok hs =>
              { status := "success", error := none
                data_mode := some "LIVE", data_source := some "Alpaca + Polygon"
                symbol := some s.selected_symbol, candles := cs
                headlines := some hs, time_range := none }

/-- `_get_historical_market_data` (lines 318–332): delegates to
`load_historical_data` with the router's selection and annotates the
result with HISTORICAL routing info and empty headlines. -/
def get_historical_market_data (svc : HistoricalDataService) (s : RouterState) :
    MarketDataPayload :=
  let result := load_historical_data svc s.selected_symbol s.selected_time_range
  { status := result.status
    error := result.error
    data_mode := some "HISTORICAL"
    data_source := some "Alpaca Historical Cache"
    symbol := some s.selected_symbol
    candles := result.candles
    headlines := some []
    time_range := some s.selected_time_range }

/-- `get_market_data` (lines 250–269): routes on the cached `is_open`. -/
def get_market_data (svc : HistoricalDataService) (s : RouterState) :
    MarketDataPayload :=
  if router_is_open s then get_live_market_data s
  else get_historical_market_data svc s

/-- The portfolio payload dict. -/
structure PortfolioPayload where
  status : String
  error : Option String
  data_mode : Option String
  data_source : Option String
  portfolio : Option Portfolio
  positions : List Position

/-- `_get_live_portfolio` (lines 351–378). -/
def get_live_portfolio (s : RouterState) : PortfolioPayload :=
  match s.live_adapter with
  | none =>
      { status := "error", error := some "Live adapter not available"
        data_mode := none, data_source := none
        portfolio := none, positions := [] }
  | some a =>
      match a.get_portfolio () with
      | .raised e =>
          { status := "error", error := some e
            data_mode := none, data_source := none
            portfolio := none, positions := [] }
      | .ok p =>
          match a.get_positions () with
          | .raised e =>
              { status := "error", error := some e
                data_mode := none, data_source := none
                portfolio := none, positions := [] }
          | .ok ps =>
              { status := "success", error := none
                data_mode := some "LIVE", data_source := some "Alpaca + Polygon"
                portfolio := some p, positions := ps }

/-- `_get_historical_portfolio` (lines 380–417): loads the selected
historical window, then synthesizes portfolio and positions from it. -/
def get_historical_portfolio (svc : HistoricalDataService) (s : RouterState) :
    PortfolioPayload :=
  let result := load_historical_data svc s.selected_symbol s.selected_time_range
  if result.status ≠ "success" then
    { status := "error"
      error := some (result.error.getD "Failed to load historical data")
      data_mode := none, data_source := none
      portfolio := none, positions := [] }
  else
    { status := "success", error := none
      data_mode := some "HISTORICAL", data_source := some "Alpaca Historical Cache"
      portfolio := some (generate_portfolio_from_historical s.selected_symbol result.candles)
      positions := generate_positions_from_historical s.selected_symbol result.candles }

/-- `get_portfolio_data` (lines 334–349). -/
def get_portfolio_data (svc : HistoricalDataService) (s : RouterState) :
    PortfolioPayload :=
  if router_is_open s then get_live_portfolio s
  else get_historical_portfolio svc s

/-- `set_symbol` (lines 181–214): raises while the market is open, raises
for a symbol outside the cache, and assigns the selection only on the
success path.  Both the post-call state and the raise-or-return outcome
are returned; `get_routing_config`'s dict (the Python return value) is
not part of the claims and is not modelled. -/
def set_symbol (svc : HistoricalDataService) (s : RouterState) (symbol : String) :
    RouterState × Except String Unit :=
  if router_is_open s then
    (s, .error ("Symbol selection disabled during live market hours. " ++
                "Symbols reflect current portfolio holdings."))
  else if symbol ∉ available_symbols svc then
    (s, .error ("Symbol '" ++ symbol ++ "' not found in historical cache."))
  else
    ({ s with selected_symbol := symbol }, .ok ())

/-- `set_time_range` (lines 216–248): raises while the market is open,
raises for a key outside `TIME_RANGES`, and assigns only on success. -/
def set_time_range (s : RouterState) (time_range : String) :
    RouterState × Except String Unit :=
  if router_is_open s then
    (s, .error "Time range selection disabled during live market hours.")
  else if (time_range_months time_range).isNone then
    (s, .error ("Invalid time range '" ++ time_range ++ "'."))
  else
    ({ s with selected_time_range := time_range }, .ok ())

/-! ## Theorems: risk guardrails (claims C2, C3, C9) -/

/-- Each guardrail rule assignment overwrites `block_reason`, so the rule
chain as written computes the LAST matching rule's reason. -/
lemma blockReason_eq_lastRuleReason (sig : Signals) (a : Action) :
    blockReason sig a = lastRuleReason sig a := by
  simp only [blockReason, lastRuleReason]
  split_ifs <;> rfl

/-- Claim C2: `apply_risk_guardrails` never raises (it is a total function
here) and is fail-closed on degenerate input: an empty or non-list actions
argument yields the empty result, and a non-empty actions list with a
`None`/non-dict risk context yields no allowed actions and every input
action blocked with the missing-risk-context reason string. -/
theorem guardrails_fail_closed_on_degenerate_input :
    (∀ ctx, apply_risk_guardrails (.list []) ctx = ⟨[], []⟩) ∧
    (∀ ctx, apply_risk_guardrails .notList ctx = ⟨[], []⟩) ∧
    (∀ acts, acts ≠ [] →
      apply_risk_guardrails (.list acts) .notDict =
        ⟨[], acts.map (fun a => (a, "Safety check failed: missing risk context"))⟩) := by
  refine ⟨fun ctx => rfl, fun ctx => rfl, fun acts h => ?_⟩
  cases acts with
  | nil => exact absurd rfl h
  | cons a rest => rfl

/-- Witness for C2: the fail-closed behavior at a concrete one-action list
with a `None` risk context. -/
theorem guardrails_fail_closed_on_degenerate_input_witness :
    apply_risk_guardrails
        (.list [⟨some "X", some "BUY", none, none⟩]) .notDict =
      ⟨[], [(⟨some "X", some "BUY", none, none⟩,
             "Safety check failed: missing risk context")]⟩ := by
  have h := guardrails_fail_closed_on_degenerate_input.2.2
      [⟨some "X", some "BUY", none, none⟩] (by simp)
  simpa using h

/-- Counterexample to claim C3: for the action
`{target: TECH_A, action: ALLOCATE_AGGRESSIVE, sector: TECH}` under a
context that is concentrated in TECH (rule 1 matches, producing
"Sector concentration breach" first) with expanding volatility (rule 3
also matches), the retained reason is rule 3's, not the first matching
rule's. -/
theorem guardrails_first_rule_counterexample :
    firstRuleReason
        (extractSignals ⟨some ⟨some true, some "TECH", some "NONE"⟩,
          some 100000, some 50000, some "EXPANDING"⟩)
        ⟨some "TECH_A", some "ALLOCATE_AGGRESSIVE", some "CANDIDATE", some "TECH"⟩ =
      some "Sector concentration breach" ∧
    (apply_risk_guardrails
        (.list [⟨some "TECH_A", some "ALLOCATE_AGGRESSIVE", some "CANDIDATE", some "TECH"⟩])
        (.dict ⟨some ⟨some true, some "TECH", some "NONE"⟩,
          some 100000, some 50000, some "EXPANDING"⟩)).blocked_actions =
      [(⟨some "TECH_A", some "ALLOCATE_AGGRESSIVE", some "CANDIDATE", some "TECH"⟩,
        "Aggressive action blocked during expanding volatility")] ∧
    ("Aggressive action blocked during expanding volatility" ≠
      "Sector concentration breach") := by
  decide

/-- Claim C3 as amended: for every action matching one or more guardrail
rules (evaluated in the fixed source order), the single reason string
attached to the blocked action is the one produced by the LAST matching
rule in that order. -/
theorem guardrails_last_rule_reason (acts : List Action) (ctx : RiskContext) :
    (apply_risk_guardrails (.list acts) (.dict ctx)).blocked_actions =
      acts.filterMap
        (fun a => (lastRuleReason (extractSignals ctx) a).map (fun r => (a, r))) := by
  cases acts with
  | nil => rfl
  | cons a rest =>
      simp only [apply_risk_guardrails]
      congr 1
      funext x
      rw [blockReason_eq_lastRuleReason]

/-- Claim C9: whenever the extracted severity is "APPROACHING", an action
whose sector equals the dominant sector and whose verb is in the
aggressive subset is blocked — with no requirement on `is_concentrated`
(the APPROACHING check does not read the concentration flag). -/
theorem approaching_severity_blocks_without_flag
    (ctx : RiskContext) (acts : List Action) (a : Action)
    (ha : a ∈ acts)
    (hsev : (extractSignals ctx).severity = "APPROACHING")
    (hsec : a.sector.getD "UNKNOWN" = (extractSignals ctx).dominant_sector)
    (hact : a.action.getD "UNKNOWN" ∈ approaching_aggressive_actions) :
    ∃ r, (a, r) ∈ (apply_risk_guardrails (.list acts) (.dict ctx)).blocked_actions := by
  have hblock : ∃ r, blockReason (extractSignals ctx) a = some r := by
    simp only [blockReason]
    split_ifs with h1 h2 h3 h4
    all_goals try exact Exists.intro _ rfl
    exact absurd (And.intro hsev (And.intro hsec hact)) h3
  obtain ⟨r, hr⟩ := hblock
  refine ⟨r, ?_⟩
  cases acts with
  | nil => simp at ha
  | cons b rest =>
      simp only [apply_risk_guardrails, List.mem_filterMap]
      exact ⟨a, ha, by rw [hr]; rfl⟩

/-- Witness for C9: a concrete context with `is_concentrated = false` but
severity "APPROACHING" still blocks a SCALE_UP in the dominant sector. -/
theorem approaching_severity_blocks_without_flag_witness :
    ∃ r, ((⟨some "T", some "SCALE_UP", some "POSITION", some "TECH"⟩ : Action), r) ∈
      (apply_risk_guardrails
        (.list [⟨some "T", some "SCALE_UP", some "POSITION", some "TECH"⟩])
        (.dict ⟨some ⟨some false, some "TECH", some "APPROACHING"⟩,
          some 100000, some 50000, some "STABLE"⟩)).blocked_actions :=
  approaching_severity_blocks_without_flag
    ⟨some ⟨some false, some "TECH", some "APPROACHING"⟩,
      some 100000, some 50000, some "STABLE"⟩
    [⟨some "T", some "SCALE_UP", some "POSITION", some "TECH"⟩]
    ⟨some "T", some "SCALE_UP", some "POSITION", some "TECH"⟩
    (by simp) (by decide) (by decide) (by decide)

/-! ## Theorems: market status resolver (claim C6) -/

/-- Claim C6: the resolver is a total function (it never raises), and with
no clock credentials it classifies exchange-local time as CLOSED/"Weekend"
on Saturday or Sunday, CLOSED/"Pre-market" strictly before 09:30,
CLOSED/"After hours" strictly past 16:00, and OPEN/"Market Open (Local
Time)" otherwise. -/
theorem market_status_local_classification
    (t : ExchangeLocalTime) (ts : String) (clock : ClockCall) :
    (t.weekday ≥ 5 →
      get_market_status false clock t ts = ⟨"CLOSED", "Weekend", ts⟩) ∧
    (t.weekday < 5 → t.time_of_day_us < market_open_us →
      get_market_status false clock t ts = ⟨"CLOSED", "Pre-market", ts⟩) ∧
    (t.weekday < 5 → t.time_of_day_us > market_close_us →
      get_market_status false clock t ts = ⟨"CLOSED", "After hours", ts⟩) ∧
    (t.weekday < 5 → market_open_us ≤ t.time_of_day_us →
      t.time_of_day_us ≤ market_close_us →
      get_market_status false clock t ts = ⟨"OPEN", "Market Open (Local Time)", ts⟩) := by
  simp only [get_market_status, local_market_status, market_open_us, market_close_us,
    Bool.false_eq_true, if_false]
  refine ⟨fun h5 => ?_, fun h5 ho => ?_, fun h5 hc => ?_, fun h5 ho hc => ?_⟩ <;>
    split_ifs <;> first | rfl | omega

/-- Witness for C6: the four classifications at concrete local times
(Saturday; Monday 00:00; Monday 16:40; Monday 11:06:40). -/
theorem market_status_local_classification_witness :
    get_market_status false .raised ⟨5, 0⟩ "ts" = ⟨"CLOSED", "Weekend", "ts"⟩ ∧
    get_market_status false .raised ⟨0, 0⟩ "ts" = ⟨"CLOSED", "Pre-market", "ts"⟩ ∧
    get_market_status false .raised ⟨0, 60000000000⟩ "ts" =
      ⟨"CLOSED", "After hours", "ts"⟩ ∧
    get_market_status false .raised ⟨0, 40000000000⟩ "ts" =
      ⟨"OPEN", "Market Open (Local Time)", "ts"⟩ :=
  ⟨(market_status_local_classification ⟨5, 0⟩ "ts" .raised).1 (by decide),
   (market_status_local_classification ⟨0, 0⟩ "ts" .raised).2.1 (by decide)
     (by decide),
   (market_status_local_classification ⟨0, 60000000000⟩ "ts" .raised).2.2.1
     (by decide) (by decide),
   (market_status_local_classification ⟨0, 40000000000⟩ "ts" .raised).2.2.2
     (by decide) (by decide) (by decide)⟩

/-! ## Theorems: historical data service (claims C4, C7, C8) -/

/-- The time-range filter only ever drops candles: its output is a sublist
of the cached series. -/
lemma filter_candles_by_range_sublist (tr : String) (l : List Candle) :
    (filter_candles_by_range tr l).Sublist l := by
  unfold filter_candles_by_range
  split
  · split
    · exact List.filter_sublist l
    · exact List.Sublist.refl l
  · exact List.Sublist.refl l

/-- Counterexample to claim C4 as stated: `_scan_cache` registers a
symbol whose filename parses even when its file cannot be read, and for
such a cached symbol `load_historical_data` returns status "error" (the
except-branch at lines 137–146), not "success". -/
theorem load_historical_read_failure_counterexample :
    (HistoricalDataService.cache
        ⟨[("SPY", ⟨0, 40, [], some "Errno 13"⟩)]⟩).lookup "SPY" =
      some ⟨0, 40, [], some "Errno 13"⟩ ∧
    (load_historical_data ⟨[("SPY", ⟨0, 40, [], some "Errno 13"⟩)]⟩
      "SPY" "1M").status = "error" ∧
    ("error" : String) ≠ "success" := by
  decide

/-- Claim C4 as amended: for a cached symbol whose file reads
successfully, `load_historical_data` returns status "success"; with a
recognised time-range key it returns exactly the cached candles dated at
or after `lastCandleDate − months × 30 days` (anchored to the end of the
cached series), and with an unrecognised key it returns the full cached
series unfiltered — not an error. -/
theorem load_historical_window_semantics
    (svc : HistoricalDataService) (symbol time_range : String)
    (entry : CacheEntry) (h : svc.cache.lookup symbol = some entry)
    (hread : entry.read_error = none) :
    (load_historical_data svc symbol time_range).status = "success" ∧
    (∀ m last_candle, time_range_months time_range = some m →
      entry.candles.getLast? = some last_candle →
      (load_historical_data svc symbol time_range).candles =
        entry.candles.filter
          (fun c => last_candle.timestamp - (m : Int) * 30 ≤ c.timestamp)) ∧
    (time_range_months time_range = none →
      (load_historical_data svc symbol time_range).candles = entry.candles) := by
  refine ⟨?_, fun m lc hm hl => ?_, fun hm => ?_⟩
  · simp [load_historical_data, h, hread]
  · simp [load_historical_data, h, hread, filter_candles_by_range, hm, hl]
  · simp [load_historical_data, h, hread, filter_candles_by_range, hm]

/-- Witness for C4: a three-candle SPY cache (dates are day numbers 0, 20,
40); "1M" keeps the candles within 30 days of the last date, and the
unrecognised key "XX" yields the full series, with success status. -/
theorem load_historical_window_semantics_witness :
    (load_historical_data ⟨[("SPY", ⟨0, 40,
        [⟨0, 1, 2, 0, 1⟩, ⟨20, 1, 2, 0, 1⟩, ⟨40, 1, 2, 0, 1⟩], none⟩)]⟩
      "SPY" "1M").status = "success" ∧
    (load_historical_data ⟨[("SPY", ⟨0, 40,
        [⟨0, 1, 2, 0, 1⟩, ⟨20, 1, 2, 0, 1⟩, ⟨40, 1, 2, 0, 1⟩], none⟩)]⟩
      "SPY" "1M").candles = [⟨20, 1, 2, 0, 1⟩, ⟨40, 1, 2, 0, 1⟩] ∧
    (load_historical_data ⟨[("SPY", ⟨0, 40,
        [⟨0, 1, 2, 0, 1⟩, ⟨20, 1, 2, 0, 1⟩, ⟨40, 1, 2, 0, 1⟩], none⟩)]⟩
      "SPY" "XX").candles =
      [⟨0, 1, 2, 0, 1⟩, ⟨20, 1, 2, 0, 1⟩, ⟨40, 1, 2, 0, 1⟩] := by
  refine ⟨(load_historical_window_semantics
      ⟨[("SPY", ⟨0, 40, [⟨0, 1, 2, 0, 1⟩, ⟨20, 1, 2, 0, 1⟩, ⟨40, 1, 2, 0, 1⟩], none⟩)]⟩
      "SPY" "1M" ⟨0, 40, [⟨0, 1, 2, 0, 1⟩, ⟨20, 1, 2, 0, 1⟩, ⟨40, 1, 2, 0, 1⟩], none⟩
      rfl rfl).1, ?_,
    (load_historical_window_semantics
      ⟨[("SPY", ⟨0, 40, [⟨0, 1, 2, 0, 1⟩, ⟨20, 1, 2, 0, 1⟩, ⟨40, 1, 2, 0, 1⟩], none⟩)]⟩
      "SPY" "XX" ⟨0, 40, [⟨0, 1, 2, 0, 1⟩, ⟨20, 1, 2, 0, 1⟩, ⟨40, 1, 2, 0, 1⟩], none⟩
      rfl rfl).2.2 rfl⟩
  have h2 := (load_historical_window_semantics
      ⟨[("SPY", ⟨0, 40, [⟨0, 1, 2, 0, 1⟩, ⟨20, 1, 2, 0, 1⟩, ⟨40, 1, 2, 0, 1⟩], none⟩)]⟩
      "SPY" "1M" ⟨0, 40, [⟨0, 1, 2, 0, 1⟩, ⟨20, 1, 2, 0, 1⟩, ⟨40, 1, 2, 0, 1⟩], none⟩
      rfl rfl).2.1 1 ⟨40, 1, 2, 0, 1⟩ rfl rfl
  rw [h2]
  decide

/-- Claim C7: when the cached series is non-decreasing in timestamp and
every cached candle's date lies within the metadata's recorded start/end
bounds, every `load_historical_data` result (any time-range key) is also
non-decreasing and stays within those bounds. -/
theorem load_historical_sorted_and_bounded
    (svc : HistoricalDataService) (symbol time_range : String)
    (entry : CacheEntry) (h : svc.cache.lookup symbol = some entry)
    (hsorted : entry.candles.Pairwise (fun a b => a.timestamp ≤ b.timestamp))
    (hbound : ∀ c ∈ entry.candles,
      entry.start_date ≤ c.timestamp ∧ c.timestamp ≤ entry.end_date) :
    (load_historical_data svc symbol time_range).candles.Pairwise
      (fun a b => a.timestamp ≤ b.timestamp) ∧
    (∀ c ∈ (load_historical_data svc symbol time_range).candles,
      entry.start_date ≤ c.timestamp ∧ c.timestamp ≤ entry.end_date) := by
  cases hre : entry.read_error with
  | some e =>
      have hc : (load_historical_data svc symbol time_range).candles = [] := by
        simp [load_historical_data, h, hre]
      rw [hc]
      exact ⟨List.Pairwise.nil, by simp⟩
  | none =>
      have hc : (load_historical_data svc symbol time_range).candles =
          filter_candles_by_range time_range entry.candles := by
        simp [load_historical_data, h, hre]
      have hsub := filter_candles_by_range_sublist time_range entry.candles
      rw [hc]
      exact ⟨hsorted.sublist hsub, fun c hcmem => hbound c (hsub.subset hcmem)⟩

/-- Witness for C7: the ordering and bounds invariants at a concrete sorted
and in-bounds two-candle cache, loaded with "6M". -/
theorem load_historical_sorted_and_bounded_witness :
    (load_historical_data ⟨[("QQQ", ⟨10, 50,
        [⟨15, 3, 4, 2, 3⟩, ⟨45, 3, 4, 2, 3⟩], none⟩)]⟩ "QQQ" "6M").candles.Pairwise
      (fun a b => a.timestamp ≤ b.timestamp) ∧
    (∀ c ∈ (load_historical_data ⟨[("QQQ", ⟨10, 50,
        [⟨15, 3, 4, 2, 3⟩, ⟨45, 3, 4, 2, 3⟩], none⟩)]⟩ "QQQ" "6M").candles,
      (10 : Int) ≤ c.timestamp ∧ c.timestamp ≤ 50) :=
  load_historical_sorted_and_bounded _ "QQQ" "6M"
    ⟨10, 50, [⟨15, 3, 4, 2, 3⟩, ⟨45, 3, 4, 2, 3⟩], none⟩ rfl
    (by decide) (by decide)

/-- `true_ranges` yields one value per consecutive candle pair. -/
lemma true_ranges_length (l : List Candle) : (true_ranges l).length = l.length - 1 := by
  induction l with
  | nil => rfl
  | cons a t ih =>
    cases t with
    | nil => rfl
    | cons b r =>
      simp only [true_ranges, List.length_cons] at ih ⊢
      omega

/-- True ranges of a dropped-prefix series are the dropped-prefix true
ranges: each true range depends only on its own consecutive pair. -/
lemma true_ranges_drop (n : Nat) (l : List Candle) :
    true_ranges (l.drop n) = (true_ranges l).drop n := by
  induction n generalizing l with
  | zero => rfl
  | succ k ih =>
    cases l with
    | nil => rfl
    | cons a t =>
      cases t with
      | nil => cases k <;> rfl
      | cons b r => simpa [true_ranges] using ih (b :: r)

/-- The ATR computed over the trailing-20 window (as
`generate_positions_from_historical` does) equals the average of the
trailing 14 true ranges of the FULL series (all of them when the series
has fewer), with the 2.0 default below 2 candles. -/
lemma calculate_atr_recent (candles : List Candle) :
    calculate_atr
        (if candles.length ≥ 20 then candles.drop (candles.length - 20) else candles) =
      (if candles.length < 2 then 2 else
        ((true_ranges candles).drop ((true_ranges candles).length - 14)).sum /
          (((true_ranges candles).drop ((true_ranges candles).length - 14)).length : ℚ)) := by
  have hlen : (true_ranges candles).length = candles.length - 1 := true_ranges_length _
  by_cases h20 : candles.length ≥ 20
  · rw [if_pos h20, if_neg (by omega : ¬ candles.length < 2)]
    have hdl : (candles.drop (candles.length - 20)).length = 20 := by
      rw [List.length_drop]; omega
    simp only [calculate_atr]
    rw [if_neg (by rw [hdl]; omega), true_ranges_drop]
    have hlen' : ((true_ranges candles).drop (candles.length - 20)).length = 19 := by
      rw [List.length_drop, hlen]; omega
    rw [if_neg (List.ne_nil_of_length_pos (by rw [hlen']; omega))]
    rw [hlen', List.drop_drop]
    have e2 : candles.length - 20 + (19 - 14) = (true_ranges candles).length - 14 := by
      rw [hlen]; omega
    rw [e2]
  · rw [if_neg h20]
    by_cases h2 : candles.length < 2
    · rw [if_pos h2]
      simp only [calculate_atr]
      rw [if_pos h2]
    · rw [if_neg h2]
      simp only [calculate_atr]
      rw [if_neg h2]
      have hne : true_ranges candles ≠ [] :=
        List.ne_nil_of_length_pos (by rw [hlen]; omega)
      rw [if_neg hne]

/-- Claim C8: for a non-empty candle series,
`generate_positions_from_historical` synthesizes exactly one position:
entry price is the (2-dp rounded) close of the candle
`min(20, len − 1)` steps before the last one (index
`len − 1 − min(20, len − 1)`, the first candle for shorter series),
current price is the last close, ATR is the average of the trailing 14
true ranges (default 2.0 below 2 candles), and `capital_allocated` is the
fixed 75000.0. -/
theorem generate_positions_synthesis (symbol : String) (candles : List Candle)
    (last_candle : Candle) (hlast : candles.getLast? = some last_candle) :
    generate_positions_from_historical symbol candles =
      [{ symbol := symbol
         sector := sector_of_symbol symbol
         entry_price := round2 ((candles.getD
             (candles.length - 1 - min 20 (candles.length - 1)) last_candle).close)
         current_price := round2 last_candle.close
         atr := round2 (if candles.length < 2 then 2 else
             ((true_ranges candles).drop ((true_ranges candles).length - 14)).sum /
               (((true_ranges candles).drop ((true_ranges candles).length - 14)).length : ℚ))
         days_held := min 20 (candles.length - 1)
         capital_allocated := 75000 }] := by
  have hne : candles ≠ [] := by
    intro h; rw [h] at hlast; simp at hlast
  have hn1 : 1 ≤ candles.length := List.length_pos.mpr hne
  have hentry :
      (if 0 < min 20 (candles.length - 1) then
        candles.getD (candles.length - (min 20 (candles.length - 1) + 1)) last_candle
      else candles.headD last_candle) =
        candles.getD (candles.length - 1 - min 20 (candles.length - 1)) last_candle := by
    by_cases hl : 0 < min 20 (candles.length - 1)
    · rw [if_pos hl]
      congr 1
      omega
    · rw [if_neg hl]
      have h1 : candles.length = 1 := by omega
      obtain ⟨a, ha⟩ := List.length_eq_one.mp h1
      subst ha
      rfl
  simp only [generate_positions_from_historical, hlast, calculate_atr_recent]
  rw [hentry]

/-- Witness for C8: a concrete three-candle series (closes 1, 2, 3; both
true ranges equal 2) yields the single position with entry price 1 (the
first candle, two steps back), current price 3, ATR 2, days held 2 and
capital 75000. -/
theorem generate_positions_synthesis_witness :
    ([⟨0, 1, 2, 0, 1⟩, ⟨1, 1, 3, 1, 2⟩, ⟨2, 1, 4, 2, 3⟩] : List Candle).getLast? =
      some ⟨2, 1, 4, 2, 3⟩ ∧
    generate_positions_from_historical "SPY"
        [⟨0, 1, 2, 0, 1⟩, ⟨1, 1, 3, 1, 2⟩, ⟨2, 1, 4, 2, 3⟩] =
      [⟨"SPY", "INDEX", 1, 3, 2, 2, 75000⟩] := by
  refine ⟨rfl, ?_⟩
  rw [generate_positions_synthesis "SPY"
    [⟨0, 1, 2, 0, 1⟩, ⟨1, 1, 3, 1, 2⟩, ⟨2, 1, 4, 2, 3⟩] ⟨2, 1, 4, 2, 3⟩ rfl]
  norm_num [round2, true_ranges, true_range, sector_of_symbol, List.getD]

/-! ## Theorems: data router (claims C1, C5, C10) -/

/-- Claim C1: when the market status reports open but live-adapter
construction raises, the refreshed router keeps `data_mode = LIVE` with
`data_source` annotated "(Connection Error)", and `get_market_data` (a
pure function of the unchanged state, hence every subsequent call)
returns an error payload in LIVE mode with no candles — never candles
from the historical cache. -/
theorem router_live_adapter_failure_stays_live
    (status : RouterMarketStatus) (msg : String) (s : RouterState)
    (svc : HistoricalDataService)
    (hopen : status.is_open = some true) :
    (refresh_market_status status (.raised msg) s).data_mode = some "LIVE" ∧
    (refresh_market_status status (.raised msg) s).data_source =
      some "Alpaca + Polygon (Connection Error)" ∧
    (get_market_data svc (refresh_market_status status (.raised msg) s)).status =
      "error" ∧
    (get_market_data svc (refresh_market_status status (.raised msg) s)).data_mode =
      some "LIVE" ∧
    (get_market_data svc (refresh_market_status status (.raised msg) s)).data_source =
      some "Alpaca + Polygon (Connection Error)" ∧
    (get_market_data svc (refresh_market_status status (.raised msg) s)).candles =
      [] := by
  have hs : refresh_market_status status (.raised msg) s =
      { s with market_status := some status, data_mode := some "LIVE",
               data_source := some "Alpaca + Polygon (Connection Error)",
               live_adapter := none } := by
    simp [refresh_market_status, hopen, initialize_live_adapter]
  rw [hs]
  simp [get_market_data, router_is_open, hopen, get_live_market_data]

/-- Witness for C1: the adapter-construction failure scenario at a fresh
router with an open market status and an empty historical cache. -/
theorem router_live_adapter_failure_stays_live_witness :
    (refresh_market_status ⟨some true, some "OPEN"⟩ (.raised "boom")
        initial_router_state).data_mode = some "LIVE" ∧
    (refresh_market_status ⟨some true, some "OPEN"⟩ (.raised "boom")
        initial_router_state).data_source =
      some "Alpaca + Polygon (Connection Error)" ∧
    (get_market_data ⟨[]⟩ (refresh_market_status ⟨some true, some "OPEN"⟩
        (.raised "boom") initial_router_state)).status = "error" ∧
    (get_market_data ⟨[]⟩ (refresh_market_status ⟨some true, some "OPEN"⟩
        (.raised "boom") initial_router_state)).data_mode = some "LIVE" ∧
    (get_market_data ⟨[]⟩ (refresh_market_status ⟨some true, some "OPEN"⟩
        (.raised "boom") initial_router_state)).data_source =
      some "Alpaca + Polygon (Connection Error)" ∧
    (get_market_data ⟨[]⟩ (refresh_market_status ⟨some true, some "OPEN"⟩
        (.raised "boom") initial_router_state)).candles = [] :=
  router_live_adapter_failure_stays_live ⟨some true, some "OPEN"⟩ "boom"
    initial_router_state ⟨[]⟩ rfl

/-- Claim C5: while `is_open` is true both selection setters fail with an
InvalidOperation-style error and leave the state untouched; every failing
call (unknown symbol / unknown time range included) leaves the state
untouched; and the selection mutates exactly on success. -/
theorem selection_setters_fail_closed
    (svc : HistoricalDataService) (s : RouterState) (symbol time_range : String) :
    (router_is_open s = true →
      (∃ e, set_symbol svc s symbol = (s, .error e)) ∧
      (∃ e, set_time_range s time_range = (s, .error e))) ∧
    (∀ e, (set_symbol svc s symbol).2 = .error e →
      (set_symbol svc s symbol).1 = s) ∧
    (∀ e, (set_time_range s time_range).2 = .error e →
      (set_time_range s time_range).1 = s) ∧
    ((set_symbol svc s symbol).2 = .ok () →
      (set_symbol svc s symbol).1 = { s with selected_symbol := symbol }) ∧
    ((set_time_range s time_range).2 = .ok () →
      (set_time_range s time_range).1 = { s with selected_time_range := time_range }) := by
  unfold set_symbol set_time_range
  split_ifs <;> simp_all

/-- Witness for C5: with an open market both setters fail and return the
state unchanged; with a closed market an unknown symbol fails leaving the
state unchanged, and a cached symbol is assigned on success. -/
theorem selection_setters_fail_closed_witness :
    (∃ e, set_symbol ⟨[]⟩
        { initial_router_state with market_status := some ⟨some true, none⟩ } "SPY" =
      ({ initial_router_state with market_status := some ⟨some true, none⟩ },
        .error e)) ∧
    (∃ e, set_time_range
        { initial_router_state with market_status := some ⟨some true, none⟩ } "1M" =
      ({ initial_router_state with market_status := some ⟨some true, none⟩ },
        .error e)) ∧
    (set_symbol ⟨[]⟩ initial_router_state "NOPE").1 = initial_router_state ∧
    (set_symbol ⟨[("SPY", ⟨0, 0, [], none⟩)]⟩ initial_router_state "SPY").1 =
      { initial_router_state with selected_symbol := "SPY" } := by
  refine ⟨(selection_setters_fail_closed ⟨[]⟩
      { initial_router_state with market_status := some ⟨some true, none⟩ }
      "SPY" "1M").1 rfl |>.1,
    (selection_setters_fail_closed ⟨[]⟩
      { initial_router_state with market_status := some ⟨some true, none⟩ }
      "SPY" "1M").1 rfl |>.2, ?_, ?_⟩
  · exact (selection_setters_fail_closed ⟨[]⟩ initial_router_state "NOPE" "1M").2.1
      "Symbol 'NOPE' not found in historical cache." rfl
  · exact (selection_setters_fail_closed ⟨[("SPY", ⟨0, 0, [], none⟩)]⟩
      initial_router_state "SPY" "1M").2.2.2.1 rfl

/-- Claim C10: a market-status dict whose `is_open` is absent or not
`true` routes fail-safe to HISTORICAL: the refresh sets
`data_mode = HISTORICAL` and clears the live adapter, and both
`get_market_data` and `get_portfolio_data` serve from the historical
service. -/
theorem ambiguous_status_routes_historical
    (status : RouterMarketStatus) (ctor : AdapterCtor) (s : RouterState)
    (svc : HistoricalDataService)
    (h : status.is_open ≠ some true) :
    (refresh_market_status status ctor s).data_mode = some "HISTORICAL" ∧
    (refresh_market_status status ctor s).live_adapter = none ∧
    get_market_data svc (refresh_market_status status ctor s) =
      get_historical_market_data svc (refresh_market_status status ctor s) ∧
    (get_market_data svc (refresh_market_status status ctor s)).data_mode =
      some "HISTORICAL" ∧
    get_portfolio_data svc (refresh_market_status status ctor s) =
      get_historical_portfolio svc (refresh_market_status status ctor s) := by
  have hfalse : status.is_open.getD false = false := by
    cases hb : status.is_open with
    | none => rfl
    | some b => cases b with
      | false => rfl
      | true => exact absurd hb h
  have hs : refresh_market_status status ctor s =
      { s with market_status := some status, data_mode := some "HISTORICAL",
               data_source := some "Alpaca Historical Cache",
               live_adapter := none } := by
    simp [refresh_market_status, hfalse]
  rw [hs]
  simp [get_market_data, get_portfolio_data, router_is_open, hfalse,
    get_historical_market_data]

/-- Witness for C10: an absent `is_open` key at a fresh router routes to
HISTORICAL, even with a constructible adapter on offer. -/
theorem ambiguous_status_routes_historical_witness :
    (refresh_market_status ⟨none, none⟩ (.raised "x")
        initial_router_state).data_mode = some "HISTORICAL" ∧
    (refresh_market_status ⟨none, none⟩ (.raised "x")
        initial_router_state).live_adapter = none ∧
    get_market_data ⟨[]⟩ (refresh_market_status ⟨none, none⟩ (.raised "x")
        initial_router_state) =
      get_historical_market_data ⟨[]⟩ (refresh_market_status ⟨none, none⟩
        (.raised "x") initial_router_state) ∧
    (get_market_data ⟨[]⟩ (refresh_market_status ⟨none, none⟩ (.raised "x")
        initial_router_state)).data_mode = some "HISTORICAL" ∧
    get_portfolio_data ⟨[]⟩ (refresh_market_status ⟨none, none⟩ (.raised "x")
        initial_router_state) =
      get_historical_portfolio ⟨[]⟩ (refresh_market_status ⟨none, none⟩
        (.raised "x") initial_router_state) :=
  ambiguous_status_routes_historical ⟨none, none⟩ (.raised "x")
    initial_router_state ⟨[]⟩ (by simp)

end BuriBuri
